import Mathlib

/-!
Shallow embedding of `server.js` (whatsapp-api): the recipient resolver
(`normalizePhoneNumber`, `parseChatTarget`, `resolveChatId`), the session
lifecycle event handlers, the `/api/send-message` and
`/api/send-batch-message` endpoints, and `/api/clear-session`.

JavaScript string primitives (`trim`, `includes`, `endsWith`,
`replace`-first-occurrence, `replace(/\D/g,'')`) are modelled structurally
over the character list of a `String`, so that all definitions evaluate in
the kernel.  The external `whatsapp-web.js` client is modelled as an
oracle: a function giving the outcome of `client.getNumberId` and
`client.sendMessage` calls; the embedding additionally records which
oracle calls were made, so that claims of the form "no lookup happens"
are statable.
-/

/-- JS `String.prototype.trim`: drop leading and trailing whitespace. -/
def jsTrim (s : String) : String :=
  ⟨((s.data.dropWhile Char.isWhitespace).reverse.dropWhile Char.isWhitespace).reverse⟩

/-- JS `str.includes(c)` for a single character. -/
def jsIncludesChar (s : String) (c : Char) : Bool :=
  s.data.any (fun a => a == c)

/-- JS `str.endsWith(suffixStr)`. -/
def jsEndsWith (s suffixStr : String) : Bool :=
  List.isSuffixOf suffixStr.data s.data

/-- Helper for `jsReplaceFirst`: replace the first occurrence of `pat` in a
character list. -/
def replaceFirstAux (pat repl : List Char) : List Char → List Char
  | [] => []
  | c :: cs =>
    if (c :: cs).take pat.length = pat then repl ++ (c :: cs).drop pat.length
    else c :: replaceFirstAux pat repl cs

/-- JS `str.replace(pat, repl)` with a string pattern: replaces only the
first occurrence. -/
def jsReplaceFirst (s pat repl : String) : String :=
  ⟨replaceFirstAux pat.data repl.data s.data⟩

/-- JS truthiness of an optional string value: `undefined`/`null` and the
empty string are falsy. -/
def jsTruthy : Option String → Bool
  | none => false
  | some s => !(s == "")

/-- `function normalizePhoneNumber(input)` — `input.replace(/\D/g, '')`:
keep only the decimal digits.  (The `typeof input !== 'string'` guard of
the source is vacuous here because the model is typed.) -/
def normalizePhoneNumber (input : String) : String :=
  ⟨input.data.filter Char.isDigit⟩

/-- Successful parse of a chat target (`parseChatTarget` return value). -/
structure ParseOk where
  chatId : String
  normalizedNumber : String
  isDirectUser : Bool
deriving DecidableEq

/-- Result of `parseChatTarget`: either a parsed target or an `error`. -/
inductive ParseResult
  | ok (p : ParseOk)
  | err (msg : String)
deriving DecidableEq

/-- `function parseChatTarget(input)` from `server.js`. -/
def parseChatTarget (input : String) : ParseResult :=
  let raw := jsTrim input
  if raw == "" then .err "Nomor tujuan tidak boleh kosong"
  else if jsIncludesChar raw '@' then
    .ok ⟨raw, raw, jsEndsWith raw "@c.us"⟩
  else
    let normalizedNumber := normalizePhoneNumber raw
    if normalizedNumber == "" then .err "Format nomor tidak valid"
    else .ok ⟨normalizedNumber ++ "@c.us", normalizedNumber, true⟩

/-- Outcome of a `client.getNumberId(n)` call, supplied by the
environment: either the call completed and produced a serialized id
(`none` models `null`/`undefined`/missing `_serialized`), or it threw. -/
inductive LookupOutcome
  | serializedOf (s : Option String)
  | threw (emsg : String)
deriving DecidableEq

/-- Successful resolution (`resolveChatId` return value). -/
structure ResolveOk where
  chatId : String
  normalizedNumber : String
deriving DecidableEq

/-- Result of `resolveChatId`: either a resolved target or an `error`. -/
inductive ResolveResult
  | ok (r : ResolveOk)
  | err (msg : String)
deriving DecidableEq

/-- `resolveChatId` result together with the instrumentation record of
which number, if any, was passed to `client.getNumberId`. -/
structure ResolveTrace where
  result : ResolveResult
  lookedUp : Option String
deriving DecidableEq

/-- `async function resolveChatId(input)` from `server.js`, with the
`client.getNumberId` call abstracted into the `lookup` oracle.
`lookedUp` records the argument of that call when it is made. -/
def resolveChatId (lookup : String → LookupOutcome) (input : String) : ResolveTrace :=
  match parseChatTarget input with
  | .err m => ⟨.err m, none⟩
  | .ok parsed =>
    if !parsed.isDirectUser then
      ⟨.ok ⟨parsed.chatId, parsed.normalizedNumber⟩, none⟩
    else
      let normalizedNumber :=
        normalizePhoneNumber (jsReplaceFirst parsed.normalizedNumber "@c.us" "")
      if normalizedNumber == "" then ⟨.err "Format nomor tidak valid", none⟩
      else
        match lookup normalizedNumber with
        | .threw _ =>
          ⟨.ok ⟨normalizedNumber ++ "@c.us", normalizedNumber⟩, some normalizedNumber⟩
        | .serializedOf s =>
          if jsTruthy s then
            ⟨.ok ⟨s.getD "", normalizedNumber⟩, some normalizedNumber⟩
          else
            ⟨.err ("Nomor " ++ normalizedNumber ++ " tidak terdaftar di WhatsApp"),
             some normalizedNumber⟩

/-- Outcome of a `client.sendMessage(chatId, body)` call, supplied by the
environment: the returned message id (`result.id._serialized`), or a
thrown error's message text. -/
inductive SendOutcome
  | sent (msgId : String)
  | sendThrew (emsg : String)
deriving DecidableEq

/-- The external `whatsapp-web.js` client, as an oracle for the two calls
the endpoints make.  The send oracle receives the chat id and the message
body (`none` models an `undefined` body). -/
structure ClientEnv where
  lookup : String → LookupOutcome
  send : String → Option String → SendOutcome

/-- One entry of the `results` array built by `/api/send-batch-message`. -/
structure ItemResult where
  number : String
  success : Bool
  messageId : Option String
  error : Option String
deriving DecidableEq

/-- Instrumented record of one loop iteration of the batch dispatcher:
the pushed result, whether the pacing `setTimeout` suspension ran after
this item, and the `client.sendMessage` call (chat id, body) if one was
made. -/
structure ItemTrace where
  result : ItemResult
  delayedAfter : Bool
  sendAttempt : Option (String × Option String)
deriving DecidableEq

/-- One entry of the JSON `recipients` array of a batch request.
`rstr` is a JSON string, `robj` a JSON object with its (string-valued)
`number` and `message` fields, `jnull` is JSON `null` (for which
`typeof recipient === 'object'` holds, so the source dereferences
`recipient.number` and throws), and `other` any remaining JSON primitive
(number/boolean), carrying its display text and its JS truthiness. -/
inductive RecipientInput
  | rstr (s : String)
  | robj (number : Option String) (message : Option String)
  | jnull
  | other (display : String) (truthy : Bool)
deriving DecidableEq

/-- `recipients.every(item => typeof item === 'string')` for one item. -/
def isStr : RecipientInput → Bool
  | .rstr _ => true
  | _ => false

/-- The `number` field pushed for an invalid-format recipient:
`recipient?.number || recipient || 'unknown'`.  (For a bare object the
source stores the object itself; the model displays it as `[object]`.) -/
def invalidNumberField : RecipientInput → String
  | .robj n _ => match n with
    | some s => if s == "" then "[object]" else s
    | none => "[object]"
  | .other d t => if t then d else "unknown"
  | _ => "unknown"

/-- The body of the per-item `try` block of `/api/send-batch-message`
(lines 526-563): resolve `targetNumber`, push a result, send on success,
and suspend for the pacing delay after a successful send that is not the
last item (`i < recipients.length - 1`, passed here as `isLast`). -/
def processTarget (env : ClientEnv) (targetNumber : String)
    (targetMessage : Option String) (isLast : Bool) : ItemTrace :=
  let res := resolveChatId env.lookup targetNumber
  match res.result with
  | .err m => ⟨⟨targetNumber, false, none, some m⟩, false, none⟩
  | .ok tgt =>
    match env.send tgt.chatId targetMessage with
    | .sent msgId =>
      ⟨⟨tgt.normalizedNumber, true, some msgId, none⟩, !isLast,
       some (tgt.chatId, targetMessage)⟩
    | .sendThrew e =>
      ⟨⟨targetNumber, false, none, some e⟩, false, some (tgt.chatId, targetMessage)⟩

/-- One iteration of the batch loop: the recipient-parsing branch
(lines 506-524) followed by the per-item try block.  A `jnull` recipient
satisfies `typeof recipient === 'object'`, so `recipient.number` throws a
TypeError that escapes the loop (the per-item `try` starts only later):
modelled as `Except.error`. -/
def runItem (env : ClientEnv) (sharedMessage : Option String)
    (r : RecipientInput) (isLast : Bool) : Except String ItemTrace :=
  match r with
  | .rstr s => .ok (processTarget env s sharedMessage isLast)
  | .jnull => .error "Cannot read properties of null (reading 'number')"
  | .robj n m =>
    if jsTruthy n && jsTruthy m then .ok (processTarget env (n.getD "") m isLast)
    else .ok ⟨⟨invalidNumberField (.robj n m), false, none,
              some "Format recipient tidak valid"⟩, false, none⟩
  | .other d t =>
    .ok ⟨⟨invalidNumberField (.other d t), false, none,
          some "Format recipient tidak valid"⟩, false, none⟩

/-- The batch dispatch loop (`for (let i = 0; i < recipients.length; i++)`).
A thrown TypeError propagates to the endpoint's outer catch, discarding
the partial results. -/
def processItems (env : ClientEnv) (sharedMessage : Option String) :
    List RecipientInput → Except String (List ItemTrace)
  | [] => .ok []
  | r :: rest =>
    match runItem env sharedMessage r rest.isEmpty with
    | .error e => .error e
    | .ok t =>
      match processItems env sharedMessage rest with
      | .error e => .error e
      | .ok ts => .ok (t :: ts)

/-- `const delayMs = Math.max(100, Math.min(delay || 1000, 10000))` with
the destructuring default `delay = 1000`: an absent or falsy (`0`) delay
becomes 1000 before clamping. -/
def effectiveDelayMs (delay : Option Int) : Int :=
  let d := delay.getD 1000
  let d := if d == 0 then 1000 else d
  max 100 (min d 10000)

/-- The HTTP response of `/api/send-batch-message`. -/
inductive BatchResponse
  | notReady
  | badRecipients
  | missingMessage
  | serverError (emsg : String)
  | ok (total sent failed : Nat) (results : List ItemResult)
deriving DecidableEq

/-- Response of the batch endpoint together with the instrumented item
traces (empty when the loop never completed). -/
structure BatchResult where
  response : BatchResponse
  delayMs : Int
  traces : List ItemTrace
deriving DecidableEq

/-- `app.post('/api/send-batch-message')`: readiness guard, recipients
validation, shared-message validation for string arrays, delay clamping,
then the dispatch loop; `sentCount`/`failedCount` count the pushed
results by their `success` flag, exactly as the loop increments them. -/
def sendBatchMessage (env : ClientEnv) (clientReady : Bool)
    (recipients : Option (List RecipientInput)) (message : Option String)
    (delay : Option Int) : BatchResult :=
  if !clientReady then ⟨.notReady, 0, []⟩
  else
    match recipients with
    | none => ⟨.badRecipients, 0, []⟩
    | some rs =>
      if rs.length == 0 then ⟨.badRecipients, 0, []⟩
      else if rs.all isStr && !jsTruthy message then ⟨.missingMessage, 0, []⟩
      else
        let delayMs := effectiveDelayMs delay
        match processItems env message rs with
        | .error e => ⟨.serverError e, delayMs, []⟩
        | .ok ts =>
          let results := ts.map (fun t => t.result)
          ⟨.ok rs.length (results.filter (fun r => r.success)).length
               (results.filter (fun r => !r.success)).length results,
           delayMs, ts⟩

/-- The HTTP response of `/api/send-message`. -/
inductive SingleResponse
  | notReady
  | missingParams
  | resolveFailed (msg : String)
  | sent (messageId toNumber : String)
  | sendFailed (emsg : String)
deriving DecidableEq

/-- Response of the single-send endpoint together with the instrumented
client calls: the `getNumberId` argument and the `sendMessage` call, when
made. -/
structure SingleTrace where
  response : SingleResponse
  lookupCall : Option String
  sendCall : Option (String × Option String)
deriving DecidableEq

/-- `app.post('/api/send-message')`: readiness guard, presence check on
`number`/`message`, resolution, then the send. -/
def sendMessageEndpoint (env : ClientEnv) (clientReady : Bool)
    (number message : Option String) : SingleTrace :=
  if !clientReady then ⟨.notReady, none, none⟩
  else if !jsTruthy number || !jsTruthy message then ⟨.missingParams, none, none⟩
  else
    let r := resolveChatId env.lookup (number.getD "")
    match r.result with
    | .err m => ⟨.resolveFailed m, r.lookedUp, none⟩
    | .ok tgt =>
      match env.send tgt.chatId message with
      | .sent msgId => ⟨.sent msgId tgt.normalizedNumber, r.lookedUp, some (tgt.chatId, message)⟩
      | .sendThrew e => ⟨.sendFailed e, r.lookedUp, some (tgt.chatId, message)⟩

/-- The spec's session phases.  The source keeps no phase variable; the
phase names which lifecycle event of `initializeWhatsApp` ran last, as
§4.2 of the spec maps them (`uninit` is the spec's `uninitialized`). -/
inductive Phase
  | uninit
  | awaiting_pairing
  | authenticated
  | ready
  | auth_failed
  | disconnected
deriving DecidableEq

/-- The process-wide mutable session state of `server.js`: `qrCodeData`
and `clientReady` are the globals of the source (the QR data URL is
abstracted to `Unit`); `phase` is the spec-level phase carried alongside
to state the claims. -/
structure WsState where
  qrCodeData : Option Unit
  clientReady : Bool
  phase : Phase
deriving DecidableEq

/-- Lifecycle events of the client, as handled in `initializeWhatsApp`.
`qrEvent encodeOk` is the `qr` event, with `encodeOk` telling whether
`qrcode.toDataURL` succeeded (on failure the handler sets
`qrCodeData = null`). -/
inductive WsEvent
  | qrEvent (encodeOk : Bool)
  | readyEvent
  | authenticatedEvent
  | authFailureEvent
  | disconnectedEvent
deriving DecidableEq

/-- The lifecycle event handlers registered in `initializeWhatsApp`
(lines 140-176), as a transition function on the session state. -/
def stepEvent (s : WsState) : WsEvent → WsState
  | .qrEvent encodeOk =>
    { s with qrCodeData := if encodeOk then some () else none,
             phase := .awaiting_pairing }
  | .readyEvent => { qrCodeData := none, clientReady := true, phase := .ready }
  | .authenticatedEvent => { s with phase := .authenticated }
  | .authFailureEvent => { qrCodeData := none, clientReady := false, phase := .auth_failed }
  | .disconnectedEvent => { qrCodeData := none, clientReady := false, phase := .disconnected }

/-- The state at process start: no QR data, not ready. -/
def initWsState : WsState := ⟨none, false, .uninit⟩

/-- Run a sequence of lifecycle events from process start. -/
def runEvents (events : List WsEvent) : WsState :=
  events.foldl stepEvent initWsState

/-- The server-side state touched by `/api/clear-session`. -/
structure ServerState where
  clientExists : Bool
  clientReady : Bool
  qrCodeData : Option Unit
  sessionDirExists : Bool
deriving DecidableEq

/-- Instrumented outcome of `/api/clear-session`: HTTP status, the state
afterwards, and which teardown calls were made. -/
structure ClearTrace where
  status : Nat
  state : ServerState
  destroyCalled : Bool
  rmCalled : Bool
deriving DecidableEq

/-- `app.post('/api/clear-session')` (lines 653-691): `client.destroy()`
is wrapped in its own try/catch whose handler only logs, so
`destroyOutcome` never affects control flow; then the globals are reset
and the session directory is removed if present.  (`fs.existsSync` and
`fs.rmSync` are modelled as non-throwing, so the outer catch never
fires.) -/
def clearSession (destroyOutcome : Except String Unit) (s0 : ServerState) : ClearTrace :=
  let afterDestroy : ServerState :=
    if s0.clientExists then
      match destroyOutcome with
      | .ok _ => s0
      | .error _ => s0
    else s0
  let s1 := { afterDestroy with clientReady := false, qrCodeData := (none : Option Unit) }
  let s2 := if s1.sessionDirExists then { s1 with sessionDirExists := false } else s1
  ⟨200, s2, s0.clientExists, s1.sessionDirExists⟩

/-- A benign client environment for concrete evaluations: every lookup
resolves to the direct-user id and every send succeeds. -/
def envOk : ClientEnv :=
  ⟨fun n => .serializedOf (some (n ++ "@c.us")), fun _ _ => .sent "MSGID"⟩

/-- Every character of a normalized phone number is a decimal digit. -/
lemma mem_normalize_isDigit (s : String) :
    ∀ c ∈ (normalizePhoneNumber s).data, c.isDigit = true := by
  intro c hc
  simp only [normalizePhoneNumber, List.mem_filter] at hc
  exact hc.2

/-- Replacing the first occurrence of `"@c.us"` in a digit-only character
list is the identity: the pattern starts with `'@'`, which is not a
digit. -/
lemma replaceFirstAux_of_digits (repl : List Char) (l : List Char)
    (hl : ∀ c ∈ l, c.isDigit = true) :
    replaceFirstAux "@c.us".data repl l = l := by
  induction l with
  | nil => rfl
  | cons c cs ih =>
    have hc : c.isDigit = true := hl c (List.mem_cons_self _ _)
    rw [replaceFirstAux, if_neg, ih (fun x hx => hl x (List.mem_cons_of_mem _ hx))]
    intro heq
    have h5 : ("@c.us".data) = ['@', 'c', '.', 'u', 's'] := rfl
    rw [h5] at heq
    simp only [List.length_cons, List.length_nil, List.take_succ_cons,
      List.cons.injEq] at heq
    rw [heq.1] at hc
    exact absurd hc (by decide)

/-- Normalization is idempotent: filtering to digits twice is filtering
once. -/
lemma normalizePhoneNumber_idem (s : String) :
    normalizePhoneNumber (normalizePhoneNumber s) = normalizePhoneNumber s := by
  simp only [normalizePhoneNumber, List.filter_filter, Bool.and_self]

/-- The renormalization step of `resolveChatId` is the identity on an
already-normalized number. -/
lemma normalize_replaceFirst_cus (s : String) :
    normalizePhoneNumber (jsReplaceFirst (normalizePhoneNumber s) "@c.us" "") =
      normalizePhoneNumber s := by
  have h := replaceFirstAux_of_digits ("" : String).data (normalizePhoneNumber s).data
    (mem_normalize_isDigit s)
  unfold jsReplaceFirst
  rw [h]
  exact normalizePhoneNumber_idem s

/-- Claim C5 (counterexample): the spec says a requested delay of 0 is
clamped to 100 ms; in the source `delay || 1000` treats 0 as falsy, so
the effective delay is the 1000 ms default, not 100. -/
theorem c5_zero_delay_counterexample : effectiveDelayMs (some 0) ≠ 100 := by decide

/-- Claim C5 (amended): the batch delay parameter is clamped to
[100, 10000] ms; requested values 50 and 5000000 give 100 and 10000, but
a requested 0 is falsy and takes the 1000 ms default. -/
theorem c5_delay_clamping :
    effectiveDelayMs (some 0) = 1000
    ∧ effectiveDelayMs (some 50) = 100
    ∧ effectiveDelayMs (some 5000000) = 10000
    ∧ ∀ d : Option Int, 100 ≤ effectiveDelayMs d ∧ effectiveDelayMs d ≤ 10000 := by
  refine ⟨by decide, by decide, by decide, ?_⟩
  intro d
  dsimp only [effectiveDelayMs]
  exact ⟨le_max_left _ _, max_le (by norm_num) (min_le_right _ _)⟩

/-- Claim C2 (counterexample): after a QR event followed by the
`authenticated` event, the phase has left `awaiting_pairing` but the
`authenticated` handler does not clear `qrCodeData`, so the artifact is
still non-null; and after a QR event whose encoding failed, the phase is
`awaiting_pairing` with a null artifact.  Both directions of the claimed
iff fail. -/
theorem c2_pairing_artifact_counterexample :
    (runEvents [.qrEvent true, .authenticatedEvent]).phase = .authenticated
    ∧ (runEvents [.qrEvent true, .authenticatedEvent]).qrCodeData = some ()
    ∧ (runEvents [.qrEvent false]).phase = .awaiting_pairing
    ∧ (runEvents [.qrEvent false]).qrCodeData = none := by decide

/-- Claim C2 (amended): the transitions to `ready`, `auth_failed` and
`disconnected` clear the pairing artifact and a QR event with successful
encoding repopulates it, but the transition to `authenticated` leaves the
artifact unchanged (so it can be non-null outside `awaiting_pairing`, and
a failed encoding leaves it null inside `awaiting_pairing`). -/
theorem c2_pairing_artifact_transitions (s : WsState) :
    (stepEvent s .readyEvent).qrCodeData = none
    ∧ (stepEvent s .authFailureEvent).qrCodeData = none
    ∧ (stepEvent s .disconnectedEvent).qrCodeData = none
    ∧ (stepEvent s (.qrEvent true)).qrCodeData = some ()
    ∧ (stepEvent s (.qrEvent false)).qrCodeData = none
    ∧ (stepEvent s .authenticatedEvent).qrCodeData = s.qrCodeData :=
  ⟨rfl, rfl, rfl, rfl, rfl, rfl⟩

/-- Claim C7: calling `/api/send-message` while the client is not ready
returns the 400 not-ready response, with no `getNumberId` and no
`sendMessage` call of any kind. -/
theorem c7_not_ready_no_send (env : ClientEnv) (number message : Option String) :
    sendMessageEndpoint env false number message = ⟨.notReady, none, none⟩ := rfl

/-- Claim C8: `/api/clear-session` returns 200 even when
`client.destroy()` throws (the inner catch swallows the error), and it
removes the persisted session directory whenever that directory is
present. -/
theorem c8_clear_session_swallows_teardown_error (e : String) (s0 : ServerState) :
    (clearSession (.error e) s0).status = 200
    ∧ (clearSession (.error e) s0).destroyCalled = s0.clientExists
    ∧ (clearSession (.error e) s0).rmCalled = s0.sessionDirExists
    ∧ (clearSession (.error e) s0).state.sessionDirExists = false := by
  cases hc : s0.clientExists <;> cases hd : s0.sessionDirExists <;>
    simp [clearSession, hc, hd]

/-- Claim C9 (counterexample): normalizing `"+62 812-3456-7890"` does not
give the spec's `"628123456789 0"` (that value contains a space, which
`replace(/\D/g, '')` strips). -/
theorem c9_normalized_number_counterexample :
    normalizePhoneNumber "+62 812-3456-7890" ≠ "628123456789 0" := by decide

/-- Claim C9 (amended): resolving `"+62 812-3456-7890"` yields
`normalizedNumber = "6281234567890"` (all non-digits stripped, no space),
and normalization is idempotent. -/
theorem c9_normalization :
    normalizePhoneNumber "+62 812-3456-7890" = "6281234567890"
    ∧ (∀ lookup, (resolveChatId lookup "+62 812-3456-7890").lookedUp = some "6281234567890")
    ∧ ∀ s, normalizePhoneNumber (normalizePhoneNumber s) = normalizePhoneNumber s := by
  refine ⟨by decide, ?_, normalizePhoneNumber_idem⟩
  intro lookup
  have hp : parseChatTarget "+62 812-3456-7890" =
      .ok ⟨"6281234567890@c.us", "6281234567890", true⟩ := by decide
  have h2 : normalizePhoneNumber (jsReplaceFirst "6281234567890" "@c.us" "") =
      "6281234567890" := by decide
  simp only [resolveChatId, hp, h2, Bool.not_true]
  rcases hl : lookup "6281234567890" with s | em
  · cases hjs : jsTruthy s <;> simp [hjs]
  · simp

/-- Claim C3 (counterexample): the input `"628@c.us"` contains `'@'`, yet
resolving it does perform a `getNumberId` lookup (on the stripped digits
`"628"`), and the returned chat id is the lookup's serialized id, not the
input string. -/
theorem c3_at_cus_triggers_lookup :
    jsIncludesChar (jsTrim "628@c.us") '@' = true
    ∧ (resolveChatId (fun _ => .serializedOf (some "999@c.us")) "628@c.us").lookedUp
        = some "628"
    ∧ (resolveChatId (fun _ => .serializedOf (some "999@c.us")) "628@c.us").result
        = .ok ⟨"999@c.us", "628"⟩ := by decide

/-- Claim C3 (amended): for a raw input containing `'@'` that does not
end with the direct-user suffix `"@c.us"`, resolution performs no lookup
and returns the trimmed input unchanged as the chat id. -/
theorem c3_at_target_no_lookup (lookup : String → LookupOutcome) (input : String)
    (h1 : jsIncludesChar (jsTrim input) '@' = true)
    (h2 : jsEndsWith (jsTrim input) "@c.us" = false) :
    resolveChatId lookup input = ⟨.ok ⟨jsTrim input, jsTrim input⟩, none⟩ := by
  have hne : (jsTrim input == "") = false := by
    cases he : jsTrim input == ""
    · rfl
    · rw [eq_of_beq he] at h1
      exact absurd h1 (by decide)
  simp only [resolveChatId, parseChatTarget, hne, h1, h2, Bool.false_eq_true,
    if_false, if_true, Bool.not_false, if_pos]

/-- Witness for `c3_at_target_no_lookup` at the group id `"123@g.us"`. -/
theorem c3_at_target_no_lookup_witness :
    jsIncludesChar (jsTrim "123@g.us") '@' = true
    ∧ jsEndsWith (jsTrim "123@g.us") "@c.us" = false
    ∧ resolveChatId (fun _ => .threw "boom") "123@g.us"
        = ⟨.ok ⟨"123@g.us", "123@g.us"⟩, none⟩ :=
  ⟨by decide, by decide,
   c3_at_target_no_lookup (fun _ => .threw "boom") "123@g.us" (by decide) (by decide)⟩

/-- Claim C4: for a digit-only target, a lookup call that throws fails
open (the resolver falls back to `normalizedNumber ++ "@c.us"`), while a
lookup that completes without a serialized id yields the hard
"not registered" error. -/
theorem c4_lookup_failure_fail_open (lookup : String → LookupOutcome) (input : String)
    (hat : jsIncludesChar (jsTrim input) '@' = false)
    (hnz : normalizePhoneNumber (jsTrim input) ≠ "") :
    (∀ e, lookup (normalizePhoneNumber (jsTrim input)) = .threw e →
      (resolveChatId lookup input).result =
        .ok ⟨normalizePhoneNumber (jsTrim input) ++ "@c.us",
             normalizePhoneNumber (jsTrim input)⟩)
    ∧ ∀ s, lookup (normalizePhoneNumber (jsTrim input)) = .serializedOf s →
        jsTruthy s = false →
        (resolveChatId lookup input).result =
          .err ("Nomor " ++ normalizePhoneNumber (jsTrim input) ++
                " tidak terdaftar di WhatsApp") := by
  have hraw : (jsTrim input == "") = false := by
    cases he : jsTrim input == ""
    · rfl
    · rw [eq_of_beq he] at hnz
      exact absurd rfl hnz
  have hnzb : (normalizePhoneNumber (jsTrim input) == "") = false :=
    beq_eq_false_iff_ne.mpr hnz
  have hstep := normalize_replaceFirst_cus (jsTrim input)
  constructor
  · intro e he
    simp only [resolveChatId, parseChatTarget, hraw, hat, hnzb, hstep, he,
      Bool.false_eq_true, if_false, Bool.not_true]
  · intro s hs hjs
    simp only [resolveChatId, parseChatTarget, hraw, hat, hnzb, hstep, hs, hjs,
      Bool.false_eq_true, if_false, Bool.not_true]

/-- Witness for `c4_lookup_failure_fail_open` at the number `"628123"`,
with a throwing lookup and with an empty lookup. -/
theorem c4_lookup_failure_fail_open_witness :
    jsIncludesChar (jsTrim "628123") '@' = false
    ∧ normalizePhoneNumber (jsTrim "628123") ≠ ""
    ∧ (resolveChatId (fun _ => .threw "net down") "628123").result
        = .ok ⟨"628123@c.us", "628123"⟩
    ∧ (resolveChatId (fun _ => .serializedOf none) "628123").result
        = .err "Nomor 628123 tidak terdaftar di WhatsApp" := by
  refine ⟨by decide, by decide, ?_, ?_⟩
  · exact (c4_lookup_failure_fail_open (fun _ => .threw "net down") "628123"
      (by decide) (by decide)).1 "net down" rfl
  · exact (c4_lookup_failure_fail_open (fun _ => .serializedOf none) "628123"
      (by decide) (by decide)).2 none rfl rfl

/-- A list is the disjoint union of the elements kept and dropped by a
Boolean filter. -/
lemma length_filter_add_length_filter_not {α : Type} (p : α → Bool) (l : List α) :
    (l.filter p).length + (l.filter (fun a => !p a)).length = l.length := by
  induction l with
  | nil => rfl
  | cons a tl ih =>
    cases hp : p a <;> simp [List.filter_cons, hp] <;> omega

/-- A nonempty list has a `length == 0` check evaluating to `false`. -/
lemma length_beq_zero_false {α : Type} (l : List α) (h : l ≠ []) :
    (l.length == 0) = false := by
  cases hl : l.length == 0
  · rfl
  · exact absurd (List.length_eq_zero.mp (eq_of_beq hl)) h

/-- Every non-null recipient produces exactly one item trace (the loop
body never throws for it). -/
lemma runItem_isOk (env : ClientEnv) (m : Option String) (r : RecipientInput) (b : Bool)
    (h : r ≠ RecipientInput.jnull) :
    ∃ t, runItem env m r b = .ok t := by
  cases r with
  | rstr s => exact ⟨_, rfl⟩
  | jnull => exact absurd rfl h
  | robj n msg =>
    cases hc : jsTruthy n && jsTruthy msg
    · exact ⟨⟨⟨invalidNumberField (.robj n msg), false, none,
        some "Format recipient tidak valid"⟩, false, none⟩, by simp [runItem, hc]⟩
    · exact ⟨processTarget env (n.getD "") msg b, by simp [runItem, hc]⟩
  | other d t => exact ⟨_, rfl⟩

/-- The dispatch loop over null-free recipients completes and produces
one trace per input item. -/
lemma processItems_ok_of_no_null (env : ClientEnv) (m : Option String)
    (rs : List RecipientInput) (h : ∀ r ∈ rs, r ≠ RecipientInput.jnull) :
    ∃ ts, processItems env m rs = .ok ts ∧ ts.length = rs.length := by
  induction rs with
  | nil => exact ⟨[], rfl, rfl⟩
  | cons r rest ih =>
    obtain ⟨t, ht⟩ := runItem_isOk env m r rest.isEmpty (h r (List.mem_cons_self _ _))
    obtain ⟨ts, hts, hlen⟩ := ih (fun x hx => h x (List.mem_cons_of_mem _ hx))
    refine ⟨t :: ts, ?_, by simp [hlen]⟩
    simp only [processItems, ht, hts]

/-- In the per-item try block, the pacing suspension runs exactly when
the send succeeded and the item is not the last one. -/
lemma processTarget_delayedAfter (env : ClientEnv) (n : String) (m : Option String)
    (b : Bool) :
    (processTarget env n m b).delayedAfter
      = ((processTarget env n m b).result.success && !b) := by
  unfold processTarget
  rcases h : (resolveChatId env.lookup n).result with r | msg
  · simp only [h]
    rcases hs : env.send r.chatId m with msgId | e <;> simp [hs]
  · simp [h]

/-- Lifting `processTarget_delayedAfter` through the recipient-parsing
branch: any produced item trace pays the delay iff its send succeeded and
it is not last. -/
lemma runItem_delayedAfter (env : ClientEnv) (m : Option String) (r : RecipientInput)
    (b : Bool) (t : ItemTrace) (h : runItem env m r b = .ok t) :
    t.delayedAfter = (t.result.success && !b) := by
  cases r with
  | rstr s =>
    simp only [runItem, Except.ok.injEq] at h
    subst h
    exact processTarget_delayedAfter env s m b
  | jnull => simp [runItem] at h
  | robj n msg =>
    cases hc : jsTruthy n && jsTruthy msg
    · simp only [runItem, hc, Bool.false_eq_true, if_false, Except.ok.injEq] at h
      subst h
      rfl
    · simp only [runItem, hc, if_true, Except.ok.injEq] at h
      subst h
      exact processTarget_delayedAfter env (n.getD "") msg b
  | other d tr =>
    simp only [runItem, Except.ok.injEq] at h
    subst h
    rfl

/-- Claim C1 (counterexample): the batch
`["628111", null, "628222"]` with a shared message passes every
precondition check (it is a nonempty array and not a string array), yet
JSON `null` satisfies `typeof recipient === 'object'`, so
`recipient.number` throws; the outer catch answers 500 with no results at
all, instead of three results. -/
theorem c1_null_recipient_aborts_batch :
    sendBatchMessage envOk true
        (some [.rstr "628111", .jnull, .rstr "628222"]) (some "hi") none
      = ⟨.serverError "Cannot read properties of null (reading 'number')", 1000, []⟩ := by
  decide

/-- Claim C1 (amended): for every batch request that passes the
precondition checks and whose recipients contain no JSON `null` entry,
the dispatch loop appends exactly one result per input item: the reported
total equals the length of the results list and of the recipients list,
and sent + failed = total, no matter how many items fail parsing,
resolution, or the send. -/
theorem c1_batch_totals_invariant (env : ClientEnv) (rs : List RecipientInput)
    (message : Option String) (delay : Option Int)
    (hnn : ∀ r ∈ rs, r ≠ RecipientInput.jnull)
    (hne : rs ≠ [])
    (hmsg : (rs.all isStr && !jsTruthy message) = false) :
    ∃ sent failed results,
      (sendBatchMessage env true (some rs) message delay).response
        = .ok rs.length sent failed results
      ∧ results.length = rs.length
      ∧ sent + failed = rs.length := by
  obtain ⟨ts, hts, hlen⟩ := processItems_ok_of_no_null env message rs hnn
  have hlen0 := length_beq_zero_false rs hne
  have hresp : (sendBatchMessage env true (some rs) message delay).response
      = .ok rs.length ((ts.map (fun t => t.result)).filter (fun r => r.success)).length
          ((ts.map (fun t => t.result)).filter (fun r => !r.success)).length
          (ts.map (fun t => t.result)) := by
    simp only [sendBatchMessage, hlen0, hmsg, hts, Bool.not_true, if_false,
      Bool.false_eq_true]
  refine ⟨_, _, _, hresp, by simp [hlen], ?_⟩
  rw [length_filter_add_length_filter_not]
  simp [hlen]

/-- Witness for `c1_batch_totals_invariant` on a one-element batch. -/
theorem c1_batch_totals_invariant_witness :
    ([RecipientInput.rstr "628111"] ≠ [])
    ∧ ∃ sent failed results,
        (sendBatchMessage envOk true (some [RecipientInput.rstr "628111"])
            (some "hi") none).response
          = .ok 1 sent failed results
        ∧ results.length = 1 ∧ sent + failed = 1 := by
  refine ⟨by decide, ?_⟩
  exact c1_batch_totals_invariant envOk [.rstr "628111"] (some "hi") none
    (by decide) (by decide) (by decide)

/-- Claim C6 (counterexample): in the batch `["abc", "628111"]` the first
item fails resolution ("abc" has no digits); it is not the last item, yet
no pacing delay runs after it — the suspension sits in the success path
only.  The delay flags of both traces are `false`. -/
theorem c6_failed_item_no_delay :
    (sendBatchMessage envOk true (some [.rstr "abc", .rstr "628111"])
        (some "hi") none).traces.map (fun t => t.delayedAfter) = [false, false]
    ∧ (sendBatchMessage envOk true (some [.rstr "abc", .rstr "628111"])
        (some "hi") none).response
      = .ok 2 1 1 [⟨"abc", false, none, some "Format nomor tidak valid"⟩,
                   ⟨"628111", true, some "MSGID", none⟩] := by decide

/-- Claim C6 (amended): during batch dispatch the pacing delay runs after
item `i` exactly when that item's send succeeded and `i` is not the last
index (`i < recipients.length - 1`); items that fail parsing, resolution,
or the send itself are followed by no delay. -/
theorem c6_delay_iff_send_succeeded (env : ClientEnv) (m : Option String)
    (rs : List RecipientInput) (ts : List ItemTrace)
    (h : processItems env m rs = .ok ts) :
    ∀ i (hi : i < ts.length),
      (ts.get ⟨i, hi⟩).delayedAfter
        = ((ts.get ⟨i, hi⟩).result.success && decide (i < rs.length - 1)) := by
  induction rs generalizing ts with
  | nil =>
    simp only [processItems, Except.ok.injEq] at h
    subst h
    intro i hi
    exact absurd hi (by simp)
  | cons r rest ih =>
    simp only [processItems] at h
    rcases hr : runItem env m r rest.isEmpty with e | t <;> rw [hr] at h
    · simp at h
    · rcases hp : processItems env m rest with e | ts' <;> rw [hp] at h
      · simp at h
      · simp only [Except.ok.injEq] at h
        subst h
        intro i hi
        cases i with
        | zero =>
          have hd := runItem_delayedAfter env m r rest.isEmpty t hr
          simp only [List.get] at hd ⊢
          rw [hd]
          congr 1
          cases rest <;> simp
        | succ j =>
          have hj : j < ts'.length := by simpa using hi
          have := ih ts' hp j hj
          simp only [List.get] at this ⊢
          rw [this]
          congr 1
          rw [decide_eq_decide]
          simp only [List.length_cons, Nat.add_sub_cancel]
          omega

/-- Witness for `c6_delay_iff_send_succeeded` on a two-item all-success
batch: the first (non-last) item is followed by the pacing delay. -/
theorem c6_delay_iff_send_succeeded_witness :
    processItems envOk (some "hi") [.rstr "628111", .rstr "628222"]
      = .ok [⟨⟨"628111", true, some "MSGID", none⟩, true,
              some ("628111@c.us", some "hi")⟩,
             ⟨⟨"628222", true, some "MSGID", none⟩, false,
              some ("628222@c.us", some "hi")⟩]
    ∧ (([⟨⟨"628111", true, some "MSGID", none⟩, true,
          some ("628111@c.us", some "hi")⟩,
         ⟨⟨"628222", true, some "MSGID", none⟩, false,
          some ("628222@c.us", some "hi")⟩] : List ItemTrace).get
            ⟨0, by decide⟩).delayedAfter
      = ((([⟨⟨"628111", true, some "MSGID", none⟩, true,
             some ("628111@c.us", some "hi")⟩,
            ⟨⟨"628222", true, some "MSGID", none⟩, false,
             some ("628222@c.us", some "hi")⟩] : List ItemTrace).get
              ⟨0, by decide⟩).result.success
          && decide (0 < ([RecipientInput.rstr "628111",
                           RecipientInput.rstr "628222"]).length - 1)) := by
  constructor
  · rfl
  · exact c6_delay_iff_send_succeeded envOk (some "hi")
      [.rstr "628111", .rstr "628222"] _ rfl 0 (by decide)

/-- Claim C10: with a nonempty recipients array and no top-level message,
the batch endpoint's missing-message 400 fires exactly when every entry
is a string; a string entry in a mixed array is never routed to the
invalid-format branch — it is dispatched via the per-item block with an
undefined (`none`) message body passed to the send. -/
theorem c10_missing_message_iff_string_array (env : ClientEnv)
    (rs : List RecipientInput) (delay : Option Int) (hne : rs ≠ []) :
    ((sendBatchMessage env true (some rs) none delay).response
        = .missingMessage ↔ rs.all isStr = true)
    ∧ ∀ s isLast,
        runItem env none (.rstr s) isLast = .ok (processTarget env s none isLast)
        ∧ ∀ cid body, (processTarget env s none isLast).sendAttempt
            = some (cid, body) → body = none := by
  have hlen0 := length_beq_zero_false rs hne
  constructor
  · constructor
    · intro hresp
      cases hall : rs.all isStr
      · exfalso
        simp only [sendBatchMessage, hlen0, hall, Bool.not_true, if_false,
          Bool.false_eq_true, Bool.false_and] at hresp
        rcases hp : processItems env none rs with e | ts <;>
          rw [hp] at hresp <;> simp at hresp
      · rfl
    · intro hall
      simp [sendBatchMessage, hlen0, hall, jsTruthy]
  · intro s isLast
    refine ⟨rfl, ?_⟩
    intro cid body hsa
    simp only [processTarget] at hsa
    rcases h : (resolveChatId env.lookup s).result with r | m
    · rcases hs2 : env.send r.chatId none with a | b2 <;>
        simp only [h, hs2, Option.some.injEq, Prod.mk.injEq] at hsa <;>
        exact hsa.2.symm
    · simp only [h] at hsa
      simp at hsa

/-- Witness for `c10_missing_message_iff_string_array` on a mixed array
(a string together with an object): the iff instance denies the
missing-message 400, and the string entry's send is attempted with an
undefined body. -/
theorem c10_missing_message_iff_string_array_witness :
    (([RecipientInput.rstr "628111",
       RecipientInput.robj (some "628222") (some "custom")].all isStr) = false)
    ∧ ((sendBatchMessage envOk true
          (some [RecipientInput.rstr "628111",
                 RecipientInput.robj (some "628222") (some "custom")])
          none none).response ≠ .missingMessage)
    ∧ (processTarget envOk "628111" none false).sendAttempt
        = some ("628111@c.us", none) := by
  refine ⟨by decide, ?_, by decide⟩
  intro h
  have hiff := (c10_missing_message_iff_string_array envOk
    [RecipientInput.rstr "628111",
     RecipientInput.robj (some "628222") (some "custom")] none (by decide)).1
  exact absurd (hiff.mp h) (by decide)
